import Mathlib

/-!
Verification development for the semantic-cache decision engine of
`arangodb-semantic-cache`.  The TypeScript sources (`src/cache.ts`,
`src/embeddings.ts`, `src/types.ts`) are shallowly embedded below:
documents are Lean structures, the ArangoDB collections are explicit
lists carried in a `Store` state, timestamps are integer milliseconds,
and floating-point numbers are modelled by the reals (similarities) and
rationals (item scores).  External effects (embedding generation, the caller's
retrieval function, key generation, the wall clock) are passed in as
explicit parameters.
-/

/-- Intent extracted from a query (`QueryIntent` in `types.ts`). -/
structure QueryIntent where
  entities : List String
  facets : List String
  timebox : Option String
deriving DecidableEq, Repr

/-- A cached result item: a node or edge from the knowledge graph. -/
structure CacheItem where
  id : String
  type : String
  score : ℚ
deriving DecidableEq, Repr

/-- Stored query document (`QueryDocument` in `types.ts`); `_key` is `key`. -/
structure QueryDocument where
  key : String
  q_text_norm : String
  q_vec : Option (List ℝ)
  intent : QueryIntent
  created_at : ℤ
  last_hit_at : ℤ
  hit_count : ℕ
  tenant_id : Option String

/-- Cached results document (`QueryResultsDocument` in `types.ts`);
`ttl_at` is kept as an absolute integer timestamp (the ISO string in the
code is only a serialisation of `Date.now() + ttlMs`). -/
structure QueryResultsDocument where
  query_id : String
  items : List CacheItem
  model_rev : String
  ttl_at : ℤ
  freshened_at : Option ℤ
deriving DecidableEq, Repr

/-- Cache lookup result (`CacheLookupResult` in `types.ts`); as produced
by `findNearestQuery` the `results` member is always non-null. -/
structure CacheLookupResult where
  query : QueryDocument
  results : QueryResultsDocument
  similarity : ℝ

/-- Retrieval result (`RetrievalResult` in `types.ts`). -/
structure RetrievalResult where
  items : List CacheItem
  source : String
  similarity : Option ℝ
  query_id : Option String

/-- Engine configuration (`SemanticCacheConfig` in `types.ts`). -/
structure SemanticCacheConfig where
  similarityThreshold : ℝ
  embeddingModel : String
  rerankerModel : Option String
  defaultTtlMs : ℤ
  topKCached : ℕ
  topKReturned : ℕ
  tenantId : Option String

/-- TTL presets based on content volatility (`TTL_PRESETS` in `types.ts`). -/
structure TtlPresets where
  static : ℤ
  semiDynamic : ℤ
  dynamic : ℤ
  realtime : ℤ

/-- `TTL_PRESETS` values, in milliseconds. -/
def TTL_PRESETS : TtlPresets :=
  { static := 30 * 24 * 60 * 60 * 1000
    semiDynamic := 7 * 24 * 60 * 60 * 1000
    dynamic := 24 * 60 * 60 * 1000
    realtime := 2 * 60 * 60 * 1000 }

/-- The two ArangoDB collections (`sc_queries`, `sc_results`) as the
engine's abstract state. -/
structure Store where
  queries : List QueryDocument
  results : List QueryResultsDocument

/-- `getModelRevision` from `embeddings.ts`. -/
def getModelRevision (embeddingModel : String) (rerankerModel : Option String) : String :=
  match rerankerModel with
  | none => "embed:" ++ embeddingModel
  | some r => "embed:" ++ embeddingModel ++ "|rerank:" ++ r

/-- The engine's `this.modelRev`, derived from the configuration. -/
def modelRev (cfg : SemanticCacheConfig) : String :=
  getModelRevision cfg.embeddingModel cfg.rerankerModel

/-- JavaScript truthiness of an optional string (`tenantId ? … : …`):
`undefined` and the empty string are falsy. -/
def isTruthy : Option String → Bool
  | none => false
  | some s => s ≠ ""

/-- The volatile facet list of `computeTtl` in `cache.ts`. -/
def volatileFacets : List String := ["price", "review", "today", "news"]

/-- `computeTtl` from `cache.ts`: absolute expiry timestamp computed from
the intent's volatility signals.  `Date.now()` is the explicit `now`. -/
def computeTtl (intent : QueryIntent) (baseTtlMs : ℤ) (now : ℤ) : ℤ :=
  let ttlMs := if intent.timebox.isSome then TTL_PRESETS.dynamic else baseTtlMs
  let ttlMs := if intent.facets.any (fun f => volatileFacets.contains f)
    then min ttlMs TTL_PRESETS.dynamic else ttlMs
  now + ttlMs

/-- The dot-product loop of `cosineSimilarity` in `embeddings.ts`
(`dotProduct`, and `normA`/`normB` when applied to a vector with itself). -/
def dotProduct (a b : List ℝ) : ℝ := (List.zipWith (· * ·) a b).sum

/-- The cosine value computed by `cosineSimilarity` once the dimension
check has passed (also the model of AQL `COSINE_SIMILARITY` used by
`findNearestQuery`): `dot / (√normA * √normB)`, and `0` at zero magnitude. -/
noncomputable def cosineSim (a b : List ℝ) : ℝ :=
  let magnitude := Real.sqrt (dotProduct a a) * Real.sqrt (dotProduct b b)
  if magnitude = 0 then 0 else dotProduct a b / magnitude

/-- `cosineSimilarity` from `embeddings.ts`: throws on dimension
mismatch, otherwise returns the cosine value. -/
noncomputable def cosineSimilarity (a b : List ℝ) : Except String ℝ :=
  if a.length ≠ b.length then
    .error ("Vector dimension mismatch: " ++ toString a.length ++ " vs " ++ toString b.length)
  else
    .ok (cosineSim a b)

/-- The candidate rows of the AQL search in `findNearestQuery`, before
the threshold filter and the `SORT sim DESC LIMIT 1`: tenant filter (only
in the tenant-scoped branch), `q_vec != null`, the join
`FIRST(FOR res … FILTER res.query_id == q._key)` with `r != null`, and
`sim = COSINE_SIMILARITY(q.q_vec, queryVec)`. -/
noncomputable def candidates (st : Store) (queryVec : List ℝ)
    (tenantId : Option String) : List CacheLookupResult :=
  let base := if isTruthy tenantId
    then st.queries.filter (fun q => q.tenant_id == tenantId)
    else st.queries
  let withVec := base.filter (fun q => q.q_vec.isSome)
  let joined := withVec.filterMap (fun q =>
    (st.results.find? (fun r => r.query_id == q.key)).map (fun r => (q, r)))
  joined.map (fun p =>
    { query := p.1, results := p.2
      similarity := cosineSim (p.1.q_vec.getD []) queryVec })

/-- `SORT sim DESC LIMIT 1`: an entry of maximal similarity (ties broken
arbitrarily; this model keeps the earliest). -/
noncomputable def bestBy : List CacheLookupResult → Option CacheLookupResult
  | [] => none
  | c :: rest =>
    match bestBy rest with
    | none => some c
    | some b => if c.similarity < b.similarity then some b else some c

open Classical in
/-- `SemanticCache.findNearestQuery` from `cache.ts`. -/
noncomputable def findNearestQuery (cfg : SemanticCacheConfig) (st : Store)
    (queryVec : List ℝ) (tenantId : Option String) : Option CacheLookupResult :=
  bestBy ((candidates st queryVec tenantId).filter
    (fun c => decide (cfg.similarityThreshold ≤ c.similarity)))

/-- `SemanticCache.touchQuery`: bump `hit_count` and `last_hit_at` of the
query with the given key. -/
def touchQuery (st : Store) (queryKey : String) (now : ℤ) : Store :=
  { st with queries := st.queries.map (fun q =>
      if q.key = queryKey then { q with last_hit_at := now, hit_count := q.hit_count + 1 }
      else q) }

/-- `SemanticCache.store`: persist a brand-new query + results pair.  The
generated key and `Date.now()` are explicit parameters. -/
def storeEntry (cfg : SemanticCacheConfig) (st : Store) (normalizedText : String)
    (queryVec : List ℝ) (items : List CacheItem) (intent : QueryIntent)
    (tenantId : Option String) (now : ℤ) (queryKey : String) : Store :=
  let queryDoc : QueryDocument :=
    { key := queryKey
      q_text_norm := normalizedText
      q_vec := some queryVec
      intent := intent
      created_at := now
      last_hit_at := now
      hit_count := 1
      tenant_id := if isTruthy tenantId then tenantId else none }
  let resultsDoc : QueryResultsDocument :=
    { query_id := queryKey
      items := items.take cfg.topKCached
      model_rev := modelRev cfg
      ttl_at := computeTtl intent cfg.defaultTtlMs now
      freshened_at := none }
  { queries := st.queries ++ [queryDoc], results := st.results ++ [resultsDoc] }

/-- `SemanticCache.updateResultsWithIntent`: update-in-place of every
results document owned by `queryKey`. -/
def updateResultsWithIntent (cfg : SemanticCacheConfig) (st : Store)
    (queryKey : String) (items : List CacheItem) (intent : Option QueryIntent)
    (now : ℤ) : Store :=
  let effectiveIntent := intent.getD { entities := [], facets := [], timebox := none }
  { st with results := st.results.map (fun r =>
      if r.query_id = queryKey then
        { r with items := items.take cfg.topKCached
                 model_rev := modelRev cfg
                 ttl_at := computeTtl effectiveIntent cfg.defaultTtlMs now
                 freshened_at := some now }
      else r) }

/-- `SemanticCache.retrieve` from `cache.ts`.  The external calls are
explicit parameters: `normalized`/`queryVec`/`intent` are the outputs of
`normalizeText`/`embed`/`extractIntent`, `freshItems` is what
`retrieveFn` would return, `newKey` is the generated key, `now` the
clock.  Returns the caller-visible result together with the new store. -/
noncomputable def retrieve (cfg : SemanticCacheConfig) (st : Store)
    (tenantId : Option String) (normalized : String) (queryVec : List ℝ)
    (intent : QueryIntent) (freshItems : List CacheItem) (now : ℤ)
    (newKey : String) : RetrievalResult × Store :=
  let effectiveTenantId := tenantId.orElse (fun _ => cfg.tenantId)
  let miss : RetrievalResult × Store :=
    ( { items := freshItems.take cfg.topKReturned
        source := "fresh"
        similarity := none
        query_id := some newKey },
      storeEntry cfg st normalized queryVec freshItems intent effectiveTenantId now newKey )
  match findNearestQuery cfg st queryVec effectiveTenantId with
  | some cached =>
    if cached.results.model_rev = modelRev cfg ∧ now < cached.results.ttl_at then
      ( { items := cached.results.items.take cfg.topKReturned
          source := "semantic-cache"
          similarity := some cached.similarity
          query_id := some cached.query.key },
        touchQuery st cached.query.key now )
    else miss
  | none => miss

/-- A scheduled fire-and-forget background refresh (the arguments
`retrieveWithBackgroundRefresh` hands to `backgroundRefresh`); the task
is dispatched, not awaited, so its effect is not applied to the store. -/
structure BackgroundRefreshTask where
  queryKey : String
  normalized : String
  queryVec : List ℝ
  originalIntent : Option QueryIntent

/-- `SemanticCache.retrieveWithBackgroundRefresh` from `cache.ts`, with
the same explicit parameters as `retrieve`; the third component lists the
background refresh tasks dispatched before returning. -/
noncomputable def retrieveWithBackgroundRefresh (cfg : SemanticCacheConfig)
    (st : Store) (tenantId : Option String) (normalized : String)
    (queryVec : List ℝ) (intent : QueryIntent) (freshItems : List CacheItem)
    (now : ℤ) (newKey : String) :
    RetrievalResult × Store × List BackgroundRefreshTask :=
  let effectiveTenantId := tenantId.orElse (fun _ => cfg.tenantId)
  match findNearestQuery cfg st queryVec effectiveTenantId with
  | some cached =>
    let ttlTime := cached.results.ttl_at
    let isModelMatch := cached.results.model_rev = modelRev cfg
    let isExpired := ttlTime ≤ now
    let isApproachingExpiry := ttlTime - now < TTL_PRESETS.realtime
    if isExpired then
      let st2 := updateResultsWithIntent cfg st cached.query.key freshItems
        (some cached.query.intent) now
      let st3 := touchQuery st2 cached.query.key now
      ( { items := freshItems.take cfg.topKReturned
          source := "fresh"
          similarity := none
          query_id := some cached.query.key },
        st3, [] )
    else
      let st2 := touchQuery st cached.query.key now
      let tasks := if ¬ isModelMatch ∨ isApproachingExpiry then
          [{ queryKey := cached.query.key
             normalized := normalized
             queryVec := queryVec
             originalIntent := some cached.query.intent }]
        else []
      ( { items := cached.results.items.take cfg.topKReturned
          source := "semantic-cache"
          similarity := some cached.similarity
          query_id := some cached.query.key },
        st2, tasks )
  | none =>
    ( { items := freshItems.take cfg.topKReturned
        source := "fresh"
        similarity := none
        query_id := some newKey },
      storeEntry cfg st normalized queryVec freshItems intent effectiveTenantId now newKey, [] )

/-- `SemanticCache.invalidateByModelRev`: remove every results document
with the given model revision; returns the new store and the count. -/
def invalidateByModelRev (st : Store) (rev : String) : Store × ℕ :=
  ( { st with results := st.results.filter (fun r => r.model_rev ≠ rev) },
    (st.results.filter (fun r => r.model_rev = rev)).length )

/-- Result of `SemanticCache.getStats`. -/
structure CacheStats where
  totalQueries : ℕ
  totalHits : ℕ
  hitRate : ℚ
deriving DecidableEq, Repr

/-- `SemanticCache.getStats` from `cache.ts`: aggregation over the
queries collection; the guard is the AQL `total > 0 AND hits > 0`. -/
def getStats (st : Store) : CacheStats :=
  let total := st.queries.length
  let hits := (st.queries.map (fun q => q.hit_count)).sum
  { totalQueries := total
    totalHits := hits
    hitRate := if 0 < total ∧ 0 < hits then ((hits : ℚ) - total) / hits else 0 }

/-- The statistics contract as the specification words it: `hitRate` is
`(totalHits − totalQueries) / totalHits` when `totalHits > 0`, else `0`. -/
def getStatsSpec (st : Store) : CacheStats :=
  let total := st.queries.length
  let hits := (st.queries.map (fun q => q.hit_count)).sum
  { totalQueries := total
    totalHits := hits
    hitRate := if 0 < hits then ((hits : ℚ) - total) / hits else 0 }

/-- The empty intent, used as default by `updateResultsWithIntent`. -/
def intentNone : QueryIntent := { entities := [], facets := [], timebox := none }

/-- A concrete configuration used in witness computations. -/
noncomputable def cfgW : SemanticCacheConfig :=
  { similarityThreshold := 1/2
    embeddingModel := "text-embedding-3-small"
    rerankerModel := none
    defaultTtlMs := 1000
    topKCached := 25
    topKReturned := 10
    tenantId := none }

/-- A concrete cached item. -/
def itemW : CacheItem := { id := "n1", type := "node", score := 1 }

/-- A concrete stored query document carrying a tenant. -/
noncomputable def qW : QueryDocument :=
  { key := "K1"
    q_text_norm := "hello"
    q_vec := some [1]
    intent := intentNone
    created_at := 0
    last_hit_at := 0
    hit_count := 1
    tenant_id := some "a" }

/-- The results document owned by `qW`; expires at time 100. -/
noncomputable def rW : QueryResultsDocument :=
  { query_id := "K1"
    items := [itemW]
    model_rev := modelRev cfgW
    ttl_at := 100
    freshened_at := none }

/-- A concrete one-entry store. -/
noncomputable def stW : Store := { queries := [qW], results := [rW] }

/-- The statistics scenario of the specification: three fresh entries
stored, the first of them hit twice. -/
noncomputable def statsScenarioStore : Store :=
  let st1 := storeEntry cfgW { queries := [], results := [] } "q1" [] [] intentNone none 0 "A"
  let st2 := storeEntry cfgW st1 "q2" [] [] intentNone none 0 "B"
  let st3 := storeEntry cfgW st2 "q3" [] [] intentNone none 0 "C"
  touchQuery (touchQuery st3 "A" 1) "A" 2

/-- The witness configuration with the similarity threshold raised to
exactly 1, to exercise the inclusive boundary of the threshold test. -/
noncomputable def cfgB : SemanticCacheConfig := { cfgW with similarityThreshold := 1 }

/-- The lookup result produced by `findNearestQuery` on the witness store. -/
noncomputable def cW : CacheLookupResult := { query := qW, results := rW, similarity := 1 }

/-! ### Basic lemmas about the similarity computation -/

theorem dotProduct_self_nonneg (v : List ℝ) : 0 ≤ dotProduct v v := by
  induction v with
  | nil => simp [dotProduct]
  | cons x xs ih =>
    have h : dotProduct (x :: xs) (x :: xs) = x * x + dotProduct xs xs := by
      simp [dotProduct]
    rw [h]
    exact add_nonneg (mul_self_nonneg x) ih

theorem cosineSim_self (v : List ℝ) (h : dotProduct v v ≠ 0) : cosineSim v v = 1 := by
  simp only [cosineSim]
  rw [Real.mul_self_sqrt (dotProduct_self_nonneg v), if_neg h, div_self h]

theorem dotProduct_replicate_zero (n : ℕ) :
    dotProduct (List.replicate n (0 : ℝ)) (List.replicate n 0) = 0 := by
  induction n with
  | zero => simp [dotProduct]
  | succ k ih =>
    have h : dotProduct (List.replicate (k + 1) (0 : ℝ)) (List.replicate (k + 1) 0)
        = 0 * 0 + dotProduct (List.replicate k 0) (List.replicate k 0) := by
      simp [dotProduct, List.replicate_succ]
    rw [h, ih]
    ring

/-! ### Lemmas about `bestBy` (the `SORT sim DESC LIMIT 1` model) -/

theorem bestBy_eq_none {l : List CacheLookupResult} : bestBy l = none ↔ l = [] := by
  cases l with
  | nil => simp [bestBy]
  | cons c rest =>
    constructor
    · intro h
      exfalso
      simp only [bestBy] at h
      cases hb : bestBy rest with
      | none => rw [hb] at h; simp at h
      | some b =>
        rw [hb] at h
        by_cases hlt : c.similarity < b.similarity <;> simp [hlt] at h
    · intro h
      simp at h

theorem bestBy_mem {l : List CacheLookupResult} {c : CacheLookupResult}
    (h : bestBy l = some c) : c ∈ l := by
  induction l generalizing c with
  | nil => simp [bestBy] at h
  | cons a rest ih =>
    simp only [bestBy] at h
    cases hb : bestBy rest with
    | none =>
      rw [hb] at h
      simp at h
      simp [h]
    | some b =>
      rw [hb] at h
      by_cases hlt : a.similarity < b.similarity
      · simp [hlt] at h
        exact List.mem_cons_of_mem a (ih (by rw [hb, h]))
      · simp [hlt] at h
        simp [← h]

theorem bestBy_max {l : List CacheLookupResult} {c : CacheLookupResult}
    (h : bestBy l = some c) : ∀ x ∈ l, x.similarity ≤ c.similarity := by
  induction l generalizing c with
  | nil => simp [bestBy] at h
  | cons a rest ih =>
    simp only [bestBy] at h
    intro x hx
    cases hb : bestBy rest with
    | none =>
      rw [hb] at h
      simp at h
      have hrest : rest = [] := bestBy_eq_none.mp hb
      subst hrest
      rcases List.mem_cons.mp hx with hxa | hxr
      · rw [hxa, h]
      · exact absurd hxr (List.not_mem_nil x)
    | some b =>
      rw [hb] at h
      by_cases hlt : a.similarity < b.similarity
      · simp [hlt] at h
        rcases List.mem_cons.mp hx with hxa | hxr
        · rw [hxa]
          exact le_of_lt (h ▸ hlt)
        · exact h ▸ ih hb x hxr
      · simp [hlt] at h
        rcases List.mem_cons.mp hx with hxa | hxr
        · rw [hxa, ← h]
        · calc x.similarity ≤ b.similarity := ih hb x hxr
            _ ≤ a.similarity := not_lt.mp hlt
            _ = c.similarity := by rw [h]

/-! ### Lemmas about the candidate population of `findNearestQuery` -/

theorem mem_candidates {st : Store} {v : List ℝ} {tid : Option String}
    {c : CacheLookupResult} (hc : c ∈ candidates st v tid) :
    c.query ∈ st.queries ∧ c.results ∈ st.results ∧
      c.results.query_id = c.query.key ∧
      c.similarity = cosineSim (c.query.q_vec.getD []) v ∧
      (isTruthy tid = true → c.query.tenant_id = tid) := by
  simp only [candidates] at hc
  rcases List.mem_map.mp hc with ⟨p, hp, hpc⟩
  rcases List.mem_filterMap.mp hp with ⟨q, hq, hqp⟩
  rcases Option.map_eq_some'.mp hqp with ⟨r, hr, hrp⟩
  have hqmem : q ∈ (if isTruthy tid then st.queries.filter (fun q => q.tenant_id == tid)
      else st.queries) := (List.mem_filter.mp hq).1
  have hqst : q ∈ st.queries := by
    by_cases ht : isTruthy tid = true
    · rw [if_pos ht] at hqmem
      exact (List.mem_filter.mp hqmem).1
    · rw [if_neg ht] at hqmem
      exact hqmem
  have htenant : isTruthy tid = true → q.tenant_id = tid := by
    intro ht
    rw [if_pos ht] at hqmem
    have := (List.mem_filter.mp hqmem).2
    exact beq_iff_eq.mp this
  have hpred : (r.query_id == q.key) = true :=
    List.find?_some (p := fun s : QueryResultsDocument => s.query_id == q.key) hr
  have hrq : r.query_id = q.key := beq_iff_eq.mp hpred
  have hrst : r ∈ st.results := List.mem_of_find?_eq_some hr
  have hcq : c.query = q := by rw [← hpc, ← hrp]
  have hcr : c.results = r := by rw [← hpc, ← hrp]
  have hcs : c.similarity = cosineSim (q.q_vec.getD []) v := by rw [← hpc, ← hrp]
  refine ⟨hcq ▸ hqst, hcr ▸ hrst, ?_, ?_, ?_⟩
  · rw [hcq, hcr]
    exact hrq
  · rw [hcq, hcs]
  · intro ht
    rw [hcq]
    exact htenant ht

open Classical in
theorem findNearestQuery_some {cfg : SemanticCacheConfig} {st : Store}
    {v : List ℝ} {tid : Option String} {c : CacheLookupResult}
    (h : findNearestQuery cfg st v tid = some c) :
    c ∈ candidates st v tid ∧ cfg.similarityThreshold ≤ c.similarity ∧
      ∀ x ∈ candidates st v tid, cfg.similarityThreshold ≤ x.similarity →
        x.similarity ≤ c.similarity := by
  simp only [findNearestQuery] at h
  have hmem := bestBy_mem h
  have hmax := bestBy_max h
  have hcand := (List.mem_filter.mp hmem).1
  have hthr : cfg.similarityThreshold ≤ c.similarity :=
    of_decide_eq_true (List.mem_filter.mp hmem).2
  refine ⟨hcand, hthr, ?_⟩
  intro x hx hxthr
  exact hmax x (List.mem_filter.mpr ⟨hx, decide_eq_true hxthr⟩)

open Classical in
theorem findNearestQuery_none {cfg : SemanticCacheConfig} {st : Store}
    {v : List ℝ} {tid : Option String}
    (h : findNearestQuery cfg st v tid = none) :
    ∀ x ∈ candidates st v tid, x.similarity < cfg.similarityThreshold := by
  simp only [findNearestQuery] at h
  have hnil := bestBy_eq_none.mp h
  rw [List.filter_eq_nil_iff] at hnil
  intro x hx
  have := hnil x hx
  simp at this
  exact this

/-! ### Concrete computations on the witness store -/

theorem cosineSim_one : cosineSim [(1:ℝ)] [1] = 1 := by
  have h : dotProduct [(1:ℝ)] [1] = 1 := by simp [dotProduct]
  simp [cosineSim, h]

theorem candidates_stW :
    candidates stW [1] none = [{ query := qW, results := rW, similarity := 1 }] := by
  simp [candidates, stW, qW, rW, isTruthy, cosineSim_one]

theorem candidates_stW_tenant :
    candidates stW [1] (some "a") = [{ query := qW, results := rW, similarity := 1 }] := by
  simp [candidates, stW, qW, rW, isTruthy, cosineSim_one]

theorem findNearestQuery_stW :
    findNearestQuery cfgW stW [1] none = some { query := qW, results := rW, similarity := 1 } := by
  have hthr : cfgW.similarityThreshold ≤ ((1:ℝ)) := by norm_num [cfgW]
  simp [findNearestQuery, candidates_stW, bestBy, List.filter, qW, cosineSim_one, hthr]

theorem findNearestQuery_stW_tenant :
    findNearestQuery cfgW stW [1] (some "a") = some { query := qW, results := rW, similarity := 1 } := by
  have hthr : cfgW.similarityThreshold ≤ ((1:ℝ)) := by norm_num [cfgW]
  simp [findNearestQuery, candidates_stW_tenant, bestBy, List.filter, qW, cosineSim_one, hthr]

theorem findNearestQuery_stW_boundary :
    findNearestQuery cfgB stW [1] none = some { query := qW, results := rW, similarity := 1 } := by
  have hthr : cfgB.similarityThreshold ≤ ((1:ℝ)) := by simp [cfgB]
  simp [findNearestQuery, candidates_stW, bestBy, List.filter, qW, cosineSim_one, hthr]

/-! ### Claim C7: TTL policy of `computeTtl` -/

/-- Claim C7: the expiry returned by `computeTtl` is `now` plus an
offset that defaults to `baseTtlMs`, is overridden to the dynamic preset
whenever `intent.timebox` is non-null regardless of `baseTtlMs`, and is
clamped to the minimum of its current value and the dynamic preset
whenever a volatility-indicating facet is present; both rules can apply
and the effective TTL is the shortest of the applicable rules. -/
theorem computeTtl_policy (intent : QueryIntent) (baseTtlMs now : ℤ) :
    computeTtl intent baseTtlMs now =
      now + (if intent.timebox.isSome then TTL_PRESETS.dynamic
        else if intent.facets.any (fun f => volatileFacets.contains f)
          then min baseTtlMs TTL_PRESETS.dynamic
          else baseTtlMs) := by
  simp only [computeTtl]
  by_cases ht : intent.timebox.isSome <;>
    by_cases hf : intent.facets.any (fun f => volatileFacets.contains f) <;>
      simp [ht, hf, min_self]

/-! ### Claim C8: statistics contract of `getStats` -/

/-- Claim C8: `getStats` reports the entry count, the sum of the
`hit_count` fields, and the hit rate `(totalHits − totalQueries) /
totalHits` when `totalHits > 0` and `0` otherwise; the scenario of
storing three fresh entries and hitting one of them twice reports
`totalQueries = 3`, `totalHits = 5`, `hitRate = 0.4`. -/
theorem getStats_contract :
    (∀ st : Store, getStats st = getStatsSpec st)
    ∧ getStats statsScenarioStore = { totalQueries := 3, totalHits := 5, hitRate := 2/5 } := by
  constructor
  · intro st
    simp only [getStats, getStatsSpec, CacheStats.mk.injEq]
    refine ⟨trivial, trivial, ?_⟩
    by_cases hh : 0 < (st.queries.map (fun q => q.hit_count)).sum
    · have hq : 0 < st.queries.length := by
        cases hq : st.queries with
        | nil => rw [hq] at hh; simp at hh
        | cons a l => simp
      rw [if_pos ⟨hq, hh⟩, if_pos hh]
    · rw [if_neg (fun hc => hh hc.2), if_neg hh]
  · simp [statsScenarioStore, storeEntry, touchQuery, getStats]
    norm_num

/-! ### Claims C9 and C10: cosine similarity -/

/-- Claim C9 counterexample: at the all-zero vector `[0]` the code
returns exactly `0` from `cosineSimilarity(v, v)`, which is not
approximately 1 under any tolerance below 1. -/
theorem cosineSimilarity_zero_self_counterexample :
    cosineSimilarity [(0:ℝ)] [0] = Except.ok 0 ∧ (0:ℝ) ≠ 1 := by
  constructor
  · have h : dotProduct [(0:ℝ)] [0] = 0 := by simp [dotProduct]
    simp [cosineSimilarity, cosineSim, h]
  · norm_num

/-- Claim C9 (amended): for every vector `v` of nonzero squared norm,
`cosineSimilarity(v, v)` is exactly 1 (the all-zero vector instead
yields 0); and for every pair of vectors of mismatched length the
computation fails with a dimension-mismatch error. -/
theorem cosineSimilarity_self_and_mismatch :
    (∀ v : List ℝ, dotProduct v v ≠ 0 → cosineSimilarity v v = Except.ok 1)
    ∧ ∀ a b : List ℝ, a.length ≠ b.length →
        cosineSimilarity a b = Except.error
          ("Vector dimension mismatch: " ++ toString a.length ++ " vs " ++ toString b.length) := by
  constructor
  · intro v h
    rw [cosineSimilarity, if_neg (by simp), cosineSim_self v h]
  · intro a b h
    rw [cosineSimilarity, if_pos h]

/-- Witness for the amended C9 theorem at the concrete inputs `[1]`
(self-similarity exactly 1) and `[1]` vs `[1, 0]` (length mismatch). -/
theorem cosineSimilarity_self_and_mismatch_witness :
    (dotProduct [(1:ℝ)] [1] ≠ 0 ∧ cosineSimilarity [(1:ℝ)] [1] = Except.ok 1)
    ∧ ([(1:ℝ)].length ≠ [(1:ℝ), 0].length
       ∧ cosineSimilarity [(1:ℝ)] [(1:ℝ), 0] = Except.error
          ("Vector dimension mismatch: " ++ toString [(1:ℝ)].length ++ " vs " ++ toString [(1:ℝ), 0].length)) := by
  have h1 : dotProduct [(1:ℝ)] [1] ≠ 0 := by norm_num [dotProduct]
  have h2 : [(1:ℝ)].length ≠ [(1:ℝ), 0].length := by norm_num
  exact ⟨⟨h1, cosineSimilarity_self_and_mismatch.1 [1] h1⟩,
    ⟨h2, cosineSimilarity_self_and_mismatch.2 [1] [1, 0] h2⟩⟩

/-- Claim C10: for every pair of equal-length vectors `cosineSimilarity`
returns a value (never an error), and whenever the magnitude product is
zero — in particular for the all-zero vector compared with itself — the
returned value is exactly 0. -/
theorem cosineSimilarity_total_at_zero :
    (∀ a b : List ℝ, a.length = b.length → cosineSimilarity a b = Except.ok (cosineSim a b))
    ∧ (∀ a b : List ℝ, a.length = b.length →
        Real.sqrt (dotProduct a a) * Real.sqrt (dotProduct b b) = 0 →
        cosineSimilarity a b = Except.ok 0)
    ∧ ∀ n : ℕ, cosineSimilarity (List.replicate n (0:ℝ)) (List.replicate n 0) = Except.ok 0 := by
  have hok : ∀ a b : List ℝ, a.length = b.length →
      cosineSimilarity a b = Except.ok (cosineSim a b) := by
    intro a b h
    rw [cosineSimilarity, if_neg (by simp [h])]
  have hzero : ∀ a b : List ℝ, a.length = b.length →
      Real.sqrt (dotProduct a a) * Real.sqrt (dotProduct b b) = 0 →
      cosineSimilarity a b = Except.ok 0 := by
    intro a b h hm
    rw [hok a b h]
    simp only [cosineSim]
    rw [if_pos hm]
  refine ⟨hok, hzero, ?_⟩
  intro n
  apply hzero _ _ rfl
  rw [dotProduct_replicate_zero n]
  simp

/-- Witness for C10 at the concrete all-zero input `[0]` vs `[0]`. -/
theorem cosineSimilarity_total_at_zero_witness :
    ([(0:ℝ)].length = [(0:ℝ)].length
      ∧ cosineSimilarity [(0:ℝ)] [(0:ℝ)] = Except.ok (cosineSim [(0:ℝ)] [(0:ℝ)]))
    ∧ (Real.sqrt (dotProduct [(0:ℝ)] [(0:ℝ)]) * Real.sqrt (dotProduct [(0:ℝ)] [(0:ℝ)]) = 0
      ∧ cosineSimilarity [(0:ℝ)] [(0:ℝ)] = Except.ok 0) := by
  have hm : Real.sqrt (dotProduct [(0:ℝ)] [(0:ℝ)]) * Real.sqrt (dotProduct [(0:ℝ)] [(0:ℝ)]) = 0 := by
    have h : dotProduct [(0:ℝ)] [0] = 0 := by simp [dotProduct]
    rw [h]
    simp
  exact ⟨⟨rfl, cosineSimilarity_total_at_zero.1 [0] [0] rfl⟩,
    ⟨hm, cosineSimilarity_total_at_zero.2.1 [0] [0] rfl hm⟩⟩

/-! ### Claim C1: tenant partitioning of `findMatch` -/

/-- Claim C1 counterexample: a lookup without a tenantId returns an
entry that carries `tenant_id = some "a"` — the untenanted AQL branch of
`findNearestQuery` has no tenant filter, so entries without a tenant and
entries of each tenant are not disjoint partitions in both directions. -/
theorem findNearestQuery_untenanted_counterexample :
    findNearestQuery cfgW stW [1] none = some { query := qW, results := rW, similarity := 1 }
    ∧ qW.tenant_id = some "a" :=
  ⟨findNearestQuery_stW, rfl⟩

/-- Claim C1 (amended): for every lookup with a non-empty tenantId,
every entry returned has `tenant_id` exactly equal to that tenantId (so
untenanted entries and other tenants' entries are never returned to a
tenant-scoped lookup); a lookup without a tenantId searches the whole
population, including entries that carry a tenant_id. -/
theorem findNearestQuery_tenant_scoped (cfg : SemanticCacheConfig) (st : Store)
    (v : List ℝ) (t : String) (c : CacheLookupResult) (ht : t ≠ "")
    (h : findNearestQuery cfg st v (some t) = some c) :
    c.query.tenant_id = some t := by
  have hc := (findNearestQuery_some h).1
  have htid := (mem_candidates hc).2.2.2.2
  apply htid
  simp [isTruthy, ht]

/-- Witness for the amended C1 theorem: a lookup scoped to tenant `"a"`
returns the entry of tenant `"a"`. -/
theorem findNearestQuery_tenant_scoped_witness :
    (("a" : String) ≠ "")
    ∧ ({ query := qW, results := rW, similarity := 1 } : CacheLookupResult).query.tenant_id = some "a" :=
  ⟨by decide, findNearestQuery_tenant_scoped cfgW stW [1] "a" _ (by decide) findNearestQuery_stW_tenant⟩

/-! ### Claim C3: best-match selection with inclusive threshold -/

/-- Claim C3: when `findNearestQuery` returns an entry, that entry is a
candidate, its similarity is the cosine similarity of its stored vector
with the input vector, that similarity is ≥ the configured threshold
(boundary inclusive), and it is maximal among all candidates reaching
the threshold; when it returns none, no candidate reaches the
threshold; and conversely it returns none whenever no candidate reaches
the threshold (in particular when the population is empty). -/
theorem findNearestQuery_best_match (cfg : SemanticCacheConfig) (st : Store)
    (v : List ℝ) (tid : Option String) :
    (∀ c, findNearestQuery cfg st v tid = some c →
      c ∈ candidates st v tid
      ∧ c.similarity = cosineSim (c.query.q_vec.getD []) v
      ∧ cfg.similarityThreshold ≤ c.similarity
      ∧ ∀ x ∈ candidates st v tid, cfg.similarityThreshold ≤ x.similarity →
          x.similarity ≤ c.similarity)
    ∧ (findNearestQuery cfg st v tid = none →
      ∀ x ∈ candidates st v tid, x.similarity < cfg.similarityThreshold)
    ∧ ((∀ x ∈ candidates st v tid, x.similarity < cfg.similarityThreshold) →
      findNearestQuery cfg st v tid = none) := by
  refine ⟨?_, ?_, ?_⟩
  · intro c h
    obtain ⟨hc, hthr, hmax⟩ := findNearestQuery_some h
    exact ⟨hc, (mem_candidates hc).2.2.2.1, hthr, hmax⟩
  · intro h
    exact findNearestQuery_none h
  · intro hall
    simp only [findNearestQuery]
    rw [bestBy_eq_none]
    apply List.filter_eq_nil_iff.mpr
    intro x hx
    simp only [decide_eq_true_eq]
    exact not_le.mpr (hall x hx)

/-- Witness for C3 at the inclusive boundary: with the threshold set to
exactly 1, the entry of similarity exactly 1 is still returned as a hit. -/
theorem findNearestQuery_best_match_witness :
    cfgB.similarityThreshold ≤
      ({ query := qW, results := rW, similarity := 1 } : CacheLookupResult).similarity :=
  ((findNearestQuery_best_match cfgB stW [1] none).1 _ findNearestQuery_stW_boundary).2.2.1

/-! ### Claim C4: no orphan hits -/

/-- Claim C4: every entry returned by `findNearestQuery` owns a results
document present in the store; and after `invalidateByModelRev rev`
every returned entry still owns a surviving results document, whose
model revision is not `rev` — queries orphaned by the invalidation are
excluded. -/
theorem findNearestQuery_no_orphan_hits (cfg : SemanticCacheConfig) (st : Store)
    (v : List ℝ) (tid : Option String) (rev : String) :
    (∀ c, findNearestQuery cfg st v tid = some c →
      c.results ∈ st.results ∧ c.results.query_id = c.query.key)
    ∧ (∀ c, findNearestQuery cfg (invalidateByModelRev st rev).1 v tid = some c →
      c.results ∈ st.results ∧ c.results.query_id = c.query.key ∧ c.results.model_rev ≠ rev) := by
  constructor
  · intro c h
    have hc := (findNearestQuery_some h).1
    exact ⟨(mem_candidates hc).2.1, (mem_candidates hc).2.2.1⟩
  · intro c h
    have hc := (findNearestQuery_some h).1
    have hres : c.results ∈ (invalidateByModelRev st rev).1.results := (mem_candidates hc).2.1
    have hqid := (mem_candidates hc).2.2.1
    simp only [invalidateByModelRev] at hres
    rw [List.mem_filter] at hres
    refine ⟨hres.1, hqid, ?_⟩
    simpa using hres.2

/-- Invalidating a model revision that matches nothing leaves the
witness store unchanged. -/
theorem invalidate_other_stW : (invalidateByModelRev stW "other").1 = stW := by
  simp only [invalidateByModelRev, stW]
  have hp : rW.model_rev ≠ "other" := by decide
  simp [hp]

/-- Witness for C4: after invalidating revision `"other"` on the witness
store, the returned entry's results document survives and its revision
is not `"other"`. -/
theorem findNearestQuery_no_orphan_hits_witness :
    ({ query := qW, results := rW, similarity := 1 } : CacheLookupResult).results ∈ stW.results
    ∧ ({ query := qW, results := rW, similarity := 1 } : CacheLookupResult).results.query_id
        = ({ query := qW, results := rW, similarity := 1 } : CacheLookupResult).query.key
    ∧ ({ query := qW, results := rW, similarity := 1 } : CacheLookupResult).results.model_rev ≠ "other" :=
  (findNearestQuery_no_orphan_hits cfgW stW [1] none "other").2 _
    (by rw [invalidate_other_stW]; exact findNearestQuery_stW)

/-! ### Claim C2: hit classification of `retrieve` -/

/-- Claim C2: a `retrieve` call returns a cache hit (source
`"semantic-cache"`, the matched entry's key, items truncated to
`topKReturned`) iff `findNearestQuery` returned the entry, its model
revision equals the engine's current revision, and its `ttl_at` is
strictly in the future; an expired entry is never returned as a hit. -/
theorem retrieve_hit_classification (cfg : SemanticCacheConfig) (st : Store)
    (tenantId : Option String) (normalized : String) (queryVec : List ℝ)
    (intent : QueryIntent) (freshItems : List CacheItem) (now : ℤ) (newKey : String) :
    (∀ c, findNearestQuery cfg st queryVec (tenantId.orElse (fun _ => cfg.tenantId)) = some c →
      ((c.results.model_rev = modelRev cfg ∧ now < c.results.ttl_at) →
        (retrieve cfg st tenantId normalized queryVec intent freshItems now newKey).1 =
          { items := c.results.items.take cfg.topKReturned
            source := "semantic-cache"
            similarity := some c.similarity
            query_id := some c.query.key })
      ∧ (c.results.ttl_at ≤ now →
        (retrieve cfg st tenantId normalized queryVec intent freshItems now newKey).1.source = "fresh"))
    ∧ ((retrieve cfg st tenantId normalized queryVec intent freshItems now newKey).1.source = "semantic-cache" →
      ∃ c, findNearestQuery cfg st queryVec (tenantId.orElse (fun _ => cfg.tenantId)) = some c
        ∧ c.results.model_rev = modelRev cfg ∧ now < c.results.ttl_at) := by
  have hfs : ("fresh" : String) ≠ "semantic-cache" := by decide
  cases hfind : findNearestQuery cfg st queryVec (tenantId.orElse (fun _ => cfg.tenantId)) with
  | none =>
    constructor
    · intro c hc
      exact absurd hc (by simp)
    · intro hsrc
      simp only [retrieve, hfind] at hsrc
      exact absurd hsrc hfs
  | some cached =>
    by_cases hvalid : cached.results.model_rev = modelRev cfg ∧ now < cached.results.ttl_at
    · constructor
      · intro c hc
        obtain rfl : cached = c := Option.some.inj hc
        constructor
        · intro _
          simp only [retrieve, hfind]
          rw [if_pos hvalid]
        · intro hexp
          exact absurd hvalid.2 (not_lt.mpr hexp)
      · intro _
        exact ⟨cached, rfl, hvalid⟩
    · constructor
      · intro c hc
        obtain rfl : cached = c := Option.some.inj hc
        constructor
        · intro hv
          exact absurd hv hvalid
        · intro _
          simp only [retrieve, hfind]
          rw [if_neg hvalid]
      · intro hsrc
        simp only [retrieve, hfind] at hsrc
        rw [if_neg hvalid] at hsrc
        exact absurd hsrc hfs

/-- Witness for C2: on the witness store at time 0 (model revision
matching, expiry 100 in the future) `retrieve` reports a semantic-cache
hit carrying the matched entry's key. -/
theorem retrieve_hit_classification_witness :
    (cW.results.model_rev = modelRev cfgW ∧ (0:ℤ) < cW.results.ttl_at)
    ∧ (retrieve cfgW stW none "h" [1] intentNone [] 0 "K2").1 =
        { items := cW.results.items.take cfgW.topKReturned
          source := "semantic-cache"
          similarity := some cW.similarity
          query_id := some cW.query.key } :=
  ⟨⟨rfl, by decide⟩,
    ((retrieve_hit_classification cfgW stW none "h" [1] intentNone [] 0 "K2").1 cW
      findNearestQuery_stW).1 ⟨rfl, by decide⟩⟩

/-! ### Claim C5: the miss path of `retrieve` mints a new key -/

/-- Claim C5: when no valid match exists (no match at all, or the match
fails freshness validation), `retrieve` returns source `"fresh"` with
the newly generated key and the fresh items truncated to `topKReturned`,
and appends a brand-new CachedQuery + CachedResult pair under the new
key, leaving every existing entry untouched (a stale match is abandoned,
not reused). -/
theorem retrieve_miss_mints_new_key (cfg : SemanticCacheConfig) (st : Store)
    (tenantId : Option String) (normalized : String) (queryVec : List ℝ)
    (intent : QueryIntent) (freshItems : List CacheItem) (now : ℤ) (newKey : String)
    (h : ∀ c, findNearestQuery cfg st queryVec (tenantId.orElse (fun _ => cfg.tenantId)) = some c →
      ¬(c.results.model_rev = modelRev cfg ∧ now < c.results.ttl_at)) :
    ∃ qd rd,
      retrieve cfg st tenantId normalized queryVec intent freshItems now newKey =
        ({ items := freshItems.take cfg.topKReturned
           source := "fresh"
           similarity := none
           query_id := some newKey },
         { queries := st.queries ++ [qd], results := st.results ++ [rd] })
      ∧ qd.key = newKey ∧ qd.hit_count = 1 ∧ qd.q_vec = some queryVec
      ∧ rd.query_id = newKey ∧ rd.items = freshItems.take cfg.topKCached
      ∧ rd.model_rev = modelRev cfg := by
  refine ⟨{ key := newKey, q_text_norm := normalized, q_vec := some queryVec,
            intent := intent, created_at := now, last_hit_at := now, hit_count := 1,
            tenant_id := if isTruthy (tenantId.orElse (fun _ => cfg.tenantId))
              then tenantId.orElse (fun _ => cfg.tenantId) else none },
          { query_id := newKey, items := freshItems.take cfg.topKCached,
            model_rev := modelRev cfg, ttl_at := computeTtl intent cfg.defaultTtlMs now,
            freshened_at := none }, ?_, rfl, rfl, rfl, rfl, rfl, rfl⟩
  cases hfind : findNearestQuery cfg st queryVec (tenantId.orElse (fun _ => cfg.tenantId)) with
  | none =>
    simp only [retrieve, hfind, storeEntry]
  | some cached =>
    simp only [retrieve, hfind]
    rw [if_neg (h cached hfind)]
    simp only [storeEntry]

/-- Witness for C5 at time 200, when the witness store's only entry has
expired (ttl 100): the match fails validation and a new pair is minted
under the new key `"K2"`. -/
theorem retrieve_miss_mints_new_key_witness :
    ∃ qd rd,
      retrieve cfgW stW none "h" [1] intentNone [] 200 "K2" =
        ({ items := List.take cfgW.topKReturned []
           source := "fresh"
           similarity := none
           query_id := some "K2" },
         { queries := stW.queries ++ [qd], results := stW.results ++ [rd] })
      ∧ qd.key = "K2" ∧ qd.hit_count = 1 ∧ qd.q_vec = some [1]
      ∧ rd.query_id = "K2" ∧ rd.items = List.take cfgW.topKCached []
      ∧ rd.model_rev = modelRev cfgW :=
  retrieve_miss_mints_new_key cfgW stW none "h" [1] intentNone [] 200 "K2"
    (by
      intro c hc
      have hc2 : findNearestQuery cfgW stW [1] none = some c := hc
      rw [findNearestQuery_stW] at hc2
      obtain rfl : cW = c := Option.some.inj hc2
      intro hv
      exact absurd hv.2 (by decide))

/-! ### Claim C6: expired-match path of `retrieveWithBackgroundRefresh` -/

/-- Claim C6: when a match exists whose `ttl_at` has already passed,
`retrieveWithBackgroundRefresh` synchronously refreshes: it returns
source `"fresh"` tagged with the existing entry's key, dispatches no
background task, creates no new document in either collection, rewrites
the matched entry's results in place with the TTL recomputed from the
original matched query's stored intent (not the new query's intent),
touches the hit stats of the owning query, and leaves every other
document unchanged. -/
theorem retrieveWBR_expired_refresh_in_place (cfg : SemanticCacheConfig) (st : Store)
    (tenantId : Option String) (normalized : String) (queryVec : List ℝ)
    (intent : QueryIntent) (freshItems : List CacheItem) (now : ℤ) (newKey : String)
    (c : CacheLookupResult)
    (hfind : findNearestQuery cfg st queryVec (tenantId.orElse (fun _ => cfg.tenantId)) = some c)
    (hexp : c.results.ttl_at ≤ now) :
    (retrieveWithBackgroundRefresh cfg st tenantId normalized queryVec intent freshItems now newKey).1 =
      { items := freshItems.take cfg.topKReturned
        source := "fresh"
        similarity := none
        query_id := some c.query.key }
    ∧ (retrieveWithBackgroundRefresh cfg st tenantId normalized queryVec intent freshItems now newKey).2.2 = []
    ∧ (retrieveWithBackgroundRefresh cfg st tenantId normalized queryVec intent freshItems now newKey).2.1.queries.length
        = st.queries.length
    ∧ (retrieveWithBackgroundRefresh cfg st tenantId normalized queryVec intent freshItems now newKey).2.1.results.length
        = st.results.length
    ∧ (∀ r ∈ st.results, r.query_id = c.query.key →
        { r with items := freshItems.take cfg.topKCached
                 model_rev := modelRev cfg
                 ttl_at := computeTtl c.query.intent cfg.defaultTtlMs now
                 freshened_at := some now }
          ∈ (retrieveWithBackgroundRefresh cfg st tenantId normalized queryVec intent freshItems now newKey).2.1.results)
    ∧ (∀ r ∈ st.results, r.query_id ≠ c.query.key →
        r ∈ (retrieveWithBackgroundRefresh cfg st tenantId normalized queryVec intent freshItems now newKey).2.1.results)
    ∧ (∀ q ∈ st.queries, q.key = c.query.key →
        { q with last_hit_at := now, hit_count := q.hit_count + 1 }
          ∈ (retrieveWithBackgroundRefresh cfg st tenantId normalized queryVec intent freshItems now newKey).2.1.queries)
    ∧ (∀ q ∈ st.queries, q.key ≠ c.query.key →
        q ∈ (retrieveWithBackgroundRefresh cfg st tenantId normalized queryVec intent freshItems now newKey).2.1.queries) := by
  have hred : retrieveWithBackgroundRefresh cfg st tenantId normalized queryVec intent freshItems now newKey =
      ({ items := freshItems.take cfg.topKReturned
         source := "fresh"
         similarity := none
         query_id := some c.query.key },
       touchQuery (updateResultsWithIntent cfg st c.query.key freshItems (some c.query.intent) now)
         c.query.key now,
       []) := by
    simp only [retrieveWithBackgroundRefresh, hfind]
    rw [if_pos hexp]
  rw [hred]
  refine ⟨rfl, rfl, ?_, ?_, ?_, ?_, ?_, ?_⟩
  · simp [touchQuery, updateResultsWithIntent]
  · simp [touchQuery, updateResultsWithIntent]
  · intro r hr hrk
    simp only [touchQuery, updateResultsWithIntent]
    exact List.mem_map.mpr ⟨r, hr, by rw [if_pos hrk]; rfl⟩
  · intro r hr hrk
    simp only [touchQuery, updateResultsWithIntent]
    exact List.mem_map.mpr ⟨r, hr, by rw [if_neg hrk]⟩
  · intro q hq hqk
    simp only [touchQuery, updateResultsWithIntent]
    exact List.mem_map.mpr ⟨q, hq, by rw [if_pos hqk]⟩
  · intro q hq hqk
    simp only [touchQuery, updateResultsWithIntent]
    exact List.mem_map.mpr ⟨q, hq, by rw [if_neg hqk]⟩

/-- Witness for C6 at time 200 on the witness store (entry expired at
100): the refresh returns `"fresh"` with the existing key `"K1"`,
schedules nothing, and the result document count is unchanged. -/
theorem retrieveWBR_expired_refresh_in_place_witness :
    (findNearestQuery cfgW stW [1] none = some cW ∧ cW.results.ttl_at ≤ 200)
    ∧ (retrieveWithBackgroundRefresh cfgW stW none "h" [1] intentNone [] 200 "K2").1 =
        { items := []
          source := "fresh"
          similarity := none
          query_id := some cW.query.key }
    ∧ (retrieveWithBackgroundRefresh cfgW stW none "h" [1] intentNone [] 200 "K2").2.2 = [] :=
  ⟨⟨findNearestQuery_stW, by decide⟩,
    (retrieveWBR_expired_refresh_in_place cfgW stW none "h" [1] intentNone [] 200 "K2" cW
      findNearestQuery_stW (by decide)).1,
    (retrieveWBR_expired_refresh_in_place cfgW stW none "h" [1] intentNone [] 200 "K2" cW
      findNearestQuery_stW (by decide)).2.1⟩
